import Mathlib

/-!
Shallow embedding of the game-state engine of `src/app/services/game.service.ts`
(an endless-runner game service).  All `number` fields are modelled as exact
rationals (IEEE doubles are rationals); decimal literals from the source are
written as fractions (0.2 = 1/5, 0.00005 = 1/20000, 0.05 = 1/20, 0.1 = 1/10,
0.3 = 3/10, 0.4 = 2/5, 0.8 = 4/5, 0.7 = 7/10, 0.5 = 1/2, 1.5 = 3/2).
`Math.random()` is modelled as an explicit stream `rand : ℕ → ℚ` of draws
together with a cursor `rngIdx` threaded through the state; a genuine source
satisfies `0 ≤ rand n` and `rand n < 1` for every `n`.
-/

namespace TempleRun

/-- The `GameState` interface of the source: the pair of flags published on
`_gameState`.  Idle = `⟨false, false⟩`, Active = `⟨false, true⟩`,
GameOver = `⟨true, false⟩`. -/
structure GameState where
  isGameOver : Bool
  isGameActive : Bool
deriving DecidableEq

/-- One obstacle or coin: the mutable `position` (x, y, z) of the
`THREE.Object3D`, plus the cosmetic z-rotation that `updateGame` spins on
coins (`coin.rotation.z += 0.05`). -/
structure Entity where
  x : ℚ
  y : ℚ
  z : ℚ
  rotZ : ℚ := 0
deriving DecidableEq

/-- The mutable fields of `GameService` that the game logic reads or writes:
`_score.value`, `_gameState.value`, `playerLane`, the player group's
`position` (x, y, z), `isJumping`, `speed`, `trackPosition`, and the two
entity arrays.  `rngIdx` is the cursor into the `Math.random()` stream. -/
structure GameService where
  score : ℚ
  gameState : GameState
  playerLane : ℤ
  playerX : ℚ
  playerY : ℚ
  playerZ : ℚ
  isJumping : Bool
  speed : ℚ
  trackPosition : ℚ
  obstacles : List Entity
  coins : List Entity
  rngIdx : ℕ
deriving DecidableEq

/-- `private trackLength: number = 500` — a constant: nothing in the source
ever writes it. -/
def trackLength : ℚ := 500

/-- `private lanes: number[] = [-2, 0, 2]` — x-positions of the three lanes. -/
def lanes : List ℚ := [-2, 0, 2]

/-- `this.lanes[n]`.  For `n ∈ {0, 1, 2}` (the only indices produced by the
source with a genuine random source and the clamped `playerLane`) this agrees
with the array access; other indices are outside the code's domain and
default to 0. -/
def laneX (n : ℤ) : ℚ := lanes.getD n.toNat 0

/-- The `y` written by `createObstacle` before `position.set`: rock
(`type = 0`) and log (`type = 1`) sit at 0.4, the statue group at 0.2.
`r` is the `Math.random()` draw, `type = Math.floor(r * 3)`. -/
def obstacleY (r : ℚ) : ℚ :=
  if Int.floor (r * 3) = 0 then 2/5
  else if Int.floor (r * 3) = 1 then 2/5
  else 1/5

/-- The inner `for (let lane = 0; lane < 3; lane++)` of
`generateObstaclesAndCoins`: for each lane other than `obstacleLane`, draw
one random; if it is `> 0.3`, draw a second for the backward jitter and
place a coin at `(lanes[lane], 0.8, z - jitter * 3)`.  Returns the coins of
the row and the advanced random cursor. -/
def coinsForRow (rand : ℕ → ℚ) (obstacleLane : ℤ) (z : ℚ) :
    List ℤ → ℕ → List Entity × ℕ
  | [], i => ([], i)
  | lane :: rest, i =>
    if lane ≠ obstacleLane then
      if rand i > 3/10 then
        ({ x := laneX lane, y := 4/5, z := z - rand (i + 1) * 3 } ::
           (coinsForRow rand obstacleLane z rest (i + 2)).1,
         (coinsForRow rand obstacleLane z rest (i + 2)).2)
      else coinsForRow rand obstacleLane z rest (i + 1)
    else coinsForRow rand obstacleLane z rest i

/-- The main loop of `generateObstaclesAndCoins`:
`for (let z = -15; z > -trackLength + 15; z -= Math.random() * 10 + 5)`.
Each iteration draws the obstacle lane (`Math.floor(r * 3)`), the obstacle
type (inside `createObstacle`), the coin draws for the other lanes, and the
step decrement.  `fuel` bounds the recursion; any `rand` with values in
[0, 1) steps by at least 5 per iteration, so 100 iterations more than cover
the 470 units from -15 down to -485 and the fuel is never exhausted on the
code's actual inputs. -/
def genLoop (rand : ℕ → ℚ) : ℕ → ℚ → ℕ → List Entity × List Entity × ℕ
  | 0, _, i => ([], [], i)
  | fuel + 1, z, i =>
    if z > -trackLength + 15 then
      let obstacleLane : ℤ := Int.floor (rand i * 3)
      let ob : Entity := { x := laneX obstacleLane, y := obstacleY (rand (i + 1)), z := z }
      let rc := coinsForRow rand obstacleLane z [0, 1, 2] (i + 2)
      let rest := genLoop rand fuel (z - (rand rc.2 * 10 + 5)) (rc.2 + 1)
      (ob :: rest.1, rc.1 ++ rest.2.1, rest.2.2)
    else ([], [], i)

/-- Iteration bound for `genLoop`; see its doc comment. -/
def genFuel : ℕ := 100

/-- `generateObstaclesAndCoins()`: clears both arrays and regenerates a full
lap.  Returns (obstacles, coins, advanced random cursor); the previous
arrays never appear in the result — generation fully replaces them. -/
def generateObstaclesAndCoins (rand : ℕ → ℚ) (i : ℕ) :
    List Entity × List Entity × ℕ :=
  genLoop rand genFuel (-15) i

/-- The `xCollision` local of `isPlayerColliding`:
`Math.abs(player.x - object.x) < (0.7 + 0.8) / 2`. -/
def xCollision (s : GameService) (e : Entity) : Bool :=
  decide (|s.playerX - e.x| < (7/10 + 4/5) / 2)

/-- The `zCollision` local of `isPlayerColliding`:
`Math.abs(player.z - object.z) < (0.5 + 0.8) / 2`. -/
def zCollision (s : GameService) (e : Entity) : Bool :=
  decide (|s.playerZ - e.z| < (1/2 + 4/5) / 2)

/-- The player's collision-box height: `this.isJumping ? 0 : 1.5`. -/
def playerHeight (s : GameService) : ℚ := if s.isJumping then 0 else 3/2

/-- The `yCollision` local of `isPlayerColliding`:
`Math.abs(player.y - object.y) < (playerHeight + 1) / 2`. -/
def yCollision (s : GameService) (e : Entity) : Bool :=
  decide (|s.playerY - e.y| < (playerHeight s + 1) / 2)

/-- `isPlayerColliding(object)`: the conjunction of the three axis tests. -/
def isPlayerColliding (s : GameService) (e : Entity) : Bool :=
  xCollision s e && zCollision s e && yCollision s e

/-- `obstacle.position.z += speed`. -/
def moveEntity (d : ℚ) (e : Entity) : Entity := { e with z := e.z + d }

/-- `coin.position.z += speed; coin.rotation.z += 0.05`. -/
def moveSpinCoin (d : ℚ) (e : Entity) : Entity :=
  { e with z := e.z + d, rotZ := e.rotZ + 1/20 }

/-- `gameOver()`: publishes `{isGameOver: true, isGameActive: false}`. -/
def gameOver (s : GameService) : GameService :=
  { s with gameState := { isGameOver := true, isGameActive := false } }

/-- `startGame()`: publishes score 0 and `{isGameOver: false,
isGameActive: true}`.  Nothing else is touched. -/
def startGame (s : GameService) : GameService :=
  { s with score := 0,
           gameState := { isGameOver := false, isGameActive := true } }

/-- `restartGame()`: the full reset — score 0, speed 0.2, trackPosition 0,
center lane, grounded player at `(lanes[1], 0, 0)`, regenerated lap, then
`{isGameOver: false, isGameActive: true}`. -/
def restartGame (rand : ℕ → ℚ) (s : GameService) : GameService :=
  let g := generateObstaclesAndCoins rand s.rngIdx
  { s with score := 0, speed := 1/5, trackPosition := 0, playerLane := 1,
           isJumping := false, playerX := laneX 1, playerY := 0, playerZ := 0,
           obstacles := g.1, coins := g.2.1, rngIdx := g.2.2,
           gameState := { isGameOver := false, isGameActive := true } }

/-- `moveLanes(direction)`: clamps `playerLane + direction` to [0, 2]; when
the clamped lane differs, `playerLane` is updated (the x interpolation
toward `lanes[newLane]` runs in its own `requestAnimationFrame` loop,
modelled by `animateLaneChange` below, and changes nothing synchronously);
otherwise nothing at all changes. -/
def moveLanes (direction : ℤ) (s : GameService) : GameService :=
  if max 0 (min 2 (s.playerLane + direction)) ≠ s.playerLane then
    { s with playerLane := max 0 (min 2 (s.playerLane + direction)) }
  else s

/-- The `animateLaneChange` closure of `moveLanes`: `x`, `startX`, `targetX`
and `progress` locals; each animation frame adds 0.1 to progress and either
interpolates or snaps to the target. -/
structure LaneAnim where
  x : ℚ
  startX : ℚ
  targetX : ℚ
  progress : ℚ
deriving DecidableEq

/-- One `animateLaneChange` callback. -/
def animateLaneChange (a : LaneAnim) : LaneAnim :=
  if a.progress + 1/10 < 1 then
    { a with progress := a.progress + 1/10,
             x := a.startX + (a.targetX - a.startX) * (a.progress + 1/10) }
  else
    { a with progress := a.progress + 1/10, x := a.targetX }

/-- The synchronous effect of `jump()` on the service: early-returns when
already jumping, otherwise raises `isJumping` (the vertical arc runs in the
`animateJump` closure, modelled by `JumpState`/`jumpStep` below). -/
def jump (s : GameService) : GameService :=
  if s.isJumping then s else { s with isJumping := true }

/-- The state touched by `jump()` and its `animateJump` closure:
`this.player.position.y`, `this.isJumping`, and the closure locals
`initialY` and `jumpProgress`. -/
structure JumpState where
  y : ℚ
  isJumping : Bool
  initialY : ℚ
  progress : ℚ
deriving DecidableEq

/-- Entry of `jump()` as seen by the closure state: no-op when already
jumping, otherwise set `isJumping`, capture `initialY = player.y`, and start
`jumpProgress` at 0 (the player's y is first written only in the first
animation callback). -/
def jumpStart (s : JumpState) : JumpState :=
  if s.isJumping then s
  else { s with isJumping := true, initialY := s.y, progress := 0 }

/-- One `animateJump` callback: `jumpProgress += 0.05`; write
`y = initialY + height` where `height = jumpHeight * Math.sin(progress * π)`;
if `progress < 1` keep flying, else snap `y = initialY` and clear
`isJumping`.  The height curve is a machine-float computation
(`2 * Math.sin(p * Math.PI)`, a rational-valued function of `p`); no claim
depends on its values, so it is passed in as the parameter `curve`. -/
def jumpStep (curve : ℚ → ℚ) (t : JumpState) : JumpState :=
  if t.progress + 1/20 < 1 then
    { t with progress := t.progress + 1/20,
             y := t.initialY + curve (t.progress + 1/20) }
  else
    { t with progress := t.progress + 1/20, y := t.initialY, isJumping := false }

/-- The keycodes recognized by `handleKeyDown`'s switch. -/
def recognizedKeys : List String :=
  ["ArrowLeft", "a", "A", "ArrowRight", "d", "D", "ArrowUp", "w", "W", " "]

/-- `handleKeyDown(event)`: early-returns unless the game is active and not
over; then dispatches on `event.key` — left keys to `moveLanes(-1)`, right
keys to `moveLanes(1)`, up keys and space to `jump()`, anything else falls
through the switch. -/
def handleKeyDown (key : String) (s : GameService) : GameService :=
  if !s.gameState.isGameActive || s.gameState.isGameOver then s
  else if key = "ArrowLeft" ∨ key = "a" ∨ key = "A" then moveLanes (-1) s
  else if key = "ArrowRight" ∨ key = "d" ∨ key = "D" then moveLanes 1 s
  else if key = "ArrowUp" ∨ key = "w" ∨ key = "W" ∨ key = " " then jump s
  else s

/-- The body of `updateGame()` past the early return: speed ramp, track
advance, recycle check, obstacle move + collision (the `forEach` calls
`gameOver()` on any hit; the net effect is a single GameOver if any moved
obstacle overlaps), coin move/spin/collect (the reverse-index loop with
`splice` removes exactly the overlapping coins and adds 10 per coin), then
the +0.1 distance reward. -/
def updateActive (rand : ℕ → ℚ) (s : GameService) : GameService :=
  let s1 := { s with speed := s.speed + 1/20000 }
  let s2 := { s1 with trackPosition := s1.trackPosition + s1.speed }
  let s3 :=
    if s2.trackPosition ≥ trackLength - 20 then
      let g := generateObstaclesAndCoins rand s2.rngIdx
      { s2 with trackPosition := 0, obstacles := g.1, coins := g.2.1,
                rngIdx := g.2.2 }
    else s2
  let movedObs := s3.obstacles.map (moveEntity s3.speed)
  let s4 := { s3 with
              obstacles := movedObs,
              gameState :=
                if movedObs.any (fun o => isPlayerColliding s3 o) then
                  { isGameOver := true, isGameActive := false }
                else s3.gameState }
  let movedCoins := s4.coins.map (moveSpinCoin s4.speed)
  let s5 := { s4 with
              coins := movedCoins.filter (fun c => !isPlayerColliding s4 c),
              score := s4.score +
                10 * ((movedCoins.filter (fun c => isPlayerColliding s4 c)).length : ℚ) }
  { s5 with score := s5.score + 1/10 }

/-- `updateGame()`: `if (!gameState.isGameActive || gameState.isGameOver)
return;` then the active body. -/
def updateGame (rand : ℕ → ℚ) (s : GameService) : GameService :=
  if !s.gameState.isGameActive || s.gameState.isGameOver then s
  else updateActive rand s

/-- `n` successive per-frame `updateGame()` calls. -/
def updateIter (rand : ℕ → ℚ) : ℕ → GameService → GameService
  | 0, s => s
  | n + 1, s => updateIter rand n (updateGame rand s)

/-- The field values the service constructor gives before `initGame`
populates the entity arrays: score 0, Idle flags, center lane, player at
`(lanes[1], 0, 0)`, grounded, base speed 0.2, track position 0. -/
def base : GameService :=
  { score := 0, gameState := { isGameOver := false, isGameActive := false },
    playerLane := 1, playerX := 0, playerY := 0, playerZ := 0,
    isJumping := false, speed := 1/5, trackPosition := 0,
    obstacles := [], coins := [], rngIdx := 0 }

/-- State after `initGame` (which calls `createTrack`, which generates the
first lap): the fresh Idle state with a generated lap. -/
def initState (rand : ℕ → ℚ) : GameService :=
  let g := generateObstaclesAndCoins rand 0
  { base with obstacles := g.1, coins := g.2.1, rngIdx := g.2.2 }

/-- An Idle state whose speed, track position, lane and entities have
drifted from the base values (every field of `GameService` is mutable, so
this is a well-formed Idle state of the service). -/
def idleDrifted : GameService :=
  { base with trackPosition := 7, speed := 2/5, playerLane := 0,
              obstacles := [{ x := -2, y := 2/5, z := -20 }] }

/-- A GameOver state with a nonzero score. -/
def overState : GameService :=
  { base with score := 5,
              gameState := { isGameOver := true, isGameActive := false } }

/-- An Active state, otherwise at base values. -/
def activeBase : GameService :=
  { base with gameState := { isGameOver := false, isGameActive := true } }

/-- An Active state with the player mid-jump-trigger: `isJumping` raised,
player still at its grounded position (exactly the state between `jump()`
returning and the first `animateJump` callback). -/
def jumpingPlayer : GameService :=
  { activeBase with isJumping := true }

/-- A rock obstacle directly ahead of the player: lane x = 0, y = 0.4. -/
def rockAhead : Entity := { x := 0, y := 2/5, z := 0 }

/-- An entity whose centre is exactly the sum of the half-extents away from
the grounded player at the origin on every axis:
x: (0.7+0.8)/2 = 3/4, y: (1.5+1)/2 = 5/4, z: (0.5+0.8)/2 = 13/20. -/
def boundaryEntity : Entity := { x := 3/4, y := 5/4, z := 13/20 }

/-- An entity strictly inside all three overlap windows of the grounded
player at the origin. -/
def insideEntity : Entity := { x := 1/2, y := 1, z := 1/2 }

/-- An Active state sitting exactly at the recycle threshold
`trackLength - 20 = 480`. -/
def recycleState : GameService := { activeBase with trackPosition := 480 }

/-- An Active state at lane 0 (left boundary). -/
def laneZeroState : GameService := { activeBase with playerLane := 0 }

/-- A grounded jump-closure state at y = 0. -/
def js0 : JumpState := { y := 0, isJumping := false, initialY := 0, progress := 0 }

/-- A concrete random stream: every draw is 1/2. -/
def halfRand : ℕ → ℚ := fun _ => 1/2

/-! ### Theorems -/

/-- C1 counterexample: false as stated.  `startGame()` writes only the score
and the phase flags.  From an Idle state whose speed (0.4), track position
(7), lane (0) and entity list differ from the base values, `startGame` does
not restore any of them and does not regenerate the lap — the obstacle list
is exactly the one from before the call. -/
theorem startGame_partial_reset_cex :
    idleDrifted.gameState.isGameActive = false ∧
    idleDrifted.gameState.isGameOver = false ∧
    (startGame idleDrifted).trackPosition = 7 ∧
    (startGame idleDrifted).speed = 2/5 ∧
    (startGame idleDrifted).playerLane = 0 ∧
    (startGame idleDrifted).obstacles = idleDrifted.obstacles := by
  norm_num [startGame, idleDrifted, base]

/-- C1 (amended): `startGame()`, from any phase and in particular from Idle,
sets the phase to Active and resets the score to 0, and changes nothing
else: speed, track position, lane, jump flag, player position, the entity
lists and the random cursor are all left untouched (the full reset — speed,
position, lane, grounding, lap regeneration — is `restartGame()`). -/
theorem startGame_spec (s : GameService) :
    startGame s =
      { s with score := 0,
               gameState := { isGameOver := false, isGameActive := true } } :=
  rfl

/-- C3 counterexample: `startGame()` has no Idle guard.  From a GameOver
state it is not a no-op: it flips the phase flags to Active (and zeroes the
score). -/
theorem startGame_not_phase_guarded_cex :
    overState.gameState.isGameOver = true ∧
    overState.gameState.isGameActive = false ∧
    startGame overState ≠ overState := by
  refine ⟨rfl, rfl, fun h => ?_⟩
  have h5 := congrArg GameService.score h
  norm_num [startGame, overState, base] at h5

/-- C3 (amended): `startGame()` is not phase-guarded — from any phase it
resets the score to 0 and sets the phase to Active, an observable change
from GameOver (see the counterexample).  The second half of the claim
survives: `startGame` is idempotent, so calling it twice in succession has
no additional effect beyond the first call. -/
theorem startGame_idempotent (s : GameService) :
    startGame (startGame s) = startGame s :=
  rfl

/-- C2 counterexample: false as stated.  With `isJumping = true` the
player's box height is 0 but the object still contributes half of its own
height 1, so the vertical test is `|playerY − objectY| < 0.5`.  A player at
y = 0 (exactly the state after `jump()` raises the flag and before the
first `animateJump` callback moves it) still vertically overlaps a rock at
y = 0.4 — and the full collision test fires. -/
theorem yCollision_while_jumping_cex :
    jumpingPlayer.isJumping = true ∧
    yCollision jumpingPlayer rockAhead = true ∧
    isPlayerColliding jumpingPlayer rockAhead = true := by
  refine ⟨rfl, ?_, ?_⟩
  · simp only [yCollision, playerHeight, jumpingPlayer, activeBase, base,
      rockAhead, decide_eq_true_eq]
    norm_num [abs_lt]
  · simp only [isPlayerColliding, xCollision, zCollision, yCollision,
      playerHeight, jumpingPlayer, activeBase, base, rockAhead,
      Bool.and_eq_true, decide_eq_true_eq]
    norm_num [abs_lt]

/-- C2 (amended): while `isJumping` is true the player's collision-box
height is 0, which narrows — but does not eliminate — the vertical overlap
window: the vertical test succeeds exactly when
`|playerY − objectY| < 1/2` (half the object's height alone).  The pass
over ground obstacles is granted only once the player has risen more than
0.5 above the object's centre, not throughout the jump. -/
theorem yCollision_jumping_iff (s : GameService) (e : Entity)
    (h : s.isJumping = true) :
    yCollision s e = true ↔ |s.playerY - e.y| < 1/2 := by
  simp [yCollision, playerHeight, h]

/-- C2 witness: the amended characterization applied at the jumping player
and the rock at y = 0.4. -/
theorem yCollision_jumping_iff_w :
    yCollision jumpingPlayer rockAhead = true :=
  (yCollision_jumping_iff jumpingPlayer rockAhead rfl).mpr
    (by norm_num [jumpingPlayer, activeBase, base, rockAhead, abs_lt])

/-- C5: the collision test is exact and strict at the boundary: centres
exactly the sum of the two half-extents apart on every axis do not overlap
(strict `<` on each axis), while centres strictly within the sum on every
axis do overlap. -/
theorem colliding_boundary_strict (s : GameService) (e : Entity) :
    ((|s.playerX - e.x| = (7/10 + 4/5) / 2 ∧
      |s.playerZ - e.z| = (1/2 + 4/5) / 2 ∧
      |s.playerY - e.y| = (playerHeight s + 1) / 2) →
      isPlayerColliding s e = false)
    ∧ ((|s.playerX - e.x| < (7/10 + 4/5) / 2 ∧
        |s.playerZ - e.z| < (1/2 + 4/5) / 2 ∧
        |s.playerY - e.y| < (playerHeight s + 1) / 2) →
      isPlayerColliding s e = true) := by
  constructor
  · rintro ⟨hx, hz, hy⟩
    simp [isPlayerColliding, xCollision, hx]
  · rintro ⟨hx, hz, hy⟩
    simp only [isPlayerColliding, xCollision, zCollision, yCollision,
      Bool.and_eq_true, decide_eq_true_eq]
    exact ⟨⟨hx, hz⟩, hy⟩

/-- C5 witness: the grounded player at the origin against the exact-boundary
entity (no overlap) and against a strictly-inside entity (overlap). -/
theorem colliding_boundary_strict_w :
    isPlayerColliding base boundaryEntity = false ∧
    isPlayerColliding base insideEntity = true :=
  ⟨(colliding_boundary_strict base boundaryEntity).1
      (by norm_num [base, boundaryEntity, playerHeight]),
   (colliding_boundary_strict base insideEntity).2
      (by norm_num [base, insideEntity, playerHeight, abs_lt])⟩

/-- C6: `updateGame()` is a pure no-op whenever the phase is not Active
(`isGameActive` false — Idle — or `isGameOver` true — GameOver): the whole
state, in particular score, speed, track position and every entity
position, is returned unchanged. -/
theorem updateGame_inactive_noop (rand : ℕ → ℚ) (s : GameService)
    (h : s.gameState.isGameActive = false ∨ s.gameState.isGameOver = true) :
    updateGame rand s = s := by
  rcases h with h | h <;> simp [updateGame, h]

/-- C6 witness: a tick on the fresh Idle state is the identity. -/
theorem updateGame_inactive_noop_w :
    updateGame halfRand base = base :=
  updateGame_inactive_noop halfRand base (Or.inl rfl)

/-- C10: keyboard input is gated on the phase: when the game is not Active
(Idle or GameOver) every key-down is a no-op, and a key outside the
recognized set is a no-op in every phase. -/
theorem handleKeyDown_gate (s : GameService) (key : String)
    (h : (s.gameState.isGameActive = false ∨ s.gameState.isGameOver = true) ∨
         key ∉ recognizedKeys) :
    handleKeyDown key s = s := by
  rcases h with h | h
  · rcases h with h | h <;> simp [handleKeyDown, h]
  · simp only [recognizedKeys, List.mem_cons, List.not_mem_nil, or_false,
      not_or] at h
    obtain ⟨h1, h2, h3, h4, h5, h6, h7, h8, h9, h10⟩ := h
    simp [handleKeyDown, h1, h2, h3, h4, h5, h6, h7, h8, h9, h10]

/-- C10 witness: an unrecognized key in an Active state and a movement key
in the Idle state both leave the state unchanged. -/
theorem handleKeyDown_gate_w :
    handleKeyDown "x" activeBase = activeBase ∧
    handleKeyDown "a" base = base :=
  ⟨handleKeyDown_gate activeBase "x" (Or.inr (by decide)),
   handleKeyDown_gate base "a" (Or.inl (Or.inl rfl))⟩

/-- C7: lane movement is clamped: for either direction and any in-range
lane the resulting lane stays in [0, 2], and the boundary requests
(`moveLanes (-1)` at lane 0, `moveLanes 1` at lane 2) are complete no-ops:
the state — lane and player lateral position included — is returned
unchanged. -/
theorem moveLanes_clamped (s : GameService) (d : ℤ)
    (hd : d = -1 ∨ d = 1) (h0 : 0 ≤ s.playerLane) (h2 : s.playerLane ≤ 2) :
    (0 ≤ (moveLanes d s).playerLane ∧ (moveLanes d s).playerLane ≤ 2)
    ∧ (s.playerLane = 0 → d = -1 → moveLanes d s = s)
    ∧ (s.playerLane = 2 → d = 1 → moveLanes d s = s) := by
  refine ⟨?_, ?_, ?_⟩
  · unfold moveLanes
    split
    · exact ⟨le_max_left 0 _, max_le (by norm_num) (min_le_left _ _)⟩
    · exact ⟨h0, h2⟩
  · intro hl hdv
    subst hdv
    unfold moveLanes
    rw [hl]
    norm_num
  · intro hl hdv
    subst hdv
    unfold moveLanes
    rw [hl]
    norm_num

/-- C7 witness: `moveLanes (-1)` at lane 0 changes nothing and the result
stays in range. -/
theorem moveLanes_clamped_w :
    moveLanes (-1) laneZeroState = laneZeroState ∧
    0 ≤ (moveLanes (-1) laneZeroState).playerLane :=
  ⟨(moveLanes_clamped laneZeroState (-1) (Or.inl rfl) (by norm_num [laneZeroState, activeBase, base])
      (by norm_num [laneZeroState, activeBase, base])).2.1 rfl rfl,
   (moveLanes_clamped laneZeroState (-1) (Or.inl rfl) (by norm_num [laneZeroState, activeBase, base])
      (by norm_num [laneZeroState, activeBase, base])).1.1⟩

/-- A jump-animation step with progress still short of 1 keeps flying. -/
theorem jumpStep_apply_pos (curve : ℚ → ℚ) (t : JumpState)
    (h : t.progress + 1/20 < 1) :
    jumpStep curve t =
      { t with progress := t.progress + 1/20,
               y := t.initialY + curve (t.progress + 1/20) } := by
  unfold jumpStep
  rw [if_pos h]

/-- A jump-animation step reaching progress 1 lands: `y` snaps back to
`initialY` and `isJumping` clears. -/
theorem jumpStep_apply_neg (curve : ℚ → ℚ) (t : JumpState)
    (h : ¬ t.progress + 1/20 < 1) :
    jumpStep curve t =
      { t with progress := t.progress + 1/20, y := t.initialY,
               isJumping := false } := by
  unfold jumpStep
  rw [if_neg h]

/-- Both branches of a jump-animation step leave `initialY` untouched. -/
theorem jumpStep_initialY (curve : ℚ → ℚ) (t : JumpState) :
    (jumpStep curve t).initialY = t.initialY := by
  unfold jumpStep
  split <;> rfl

/-- Both branches of a jump-animation step advance `progress` by 0.05. -/
theorem jumpStep_progress (curve : ℚ → ℚ) (t : JumpState) :
    (jumpStep curve t).progress = t.progress + 1/20 := by
  unfold jumpStep
  split <;> rfl

/-- `initialY` is invariant across any number of jump-animation steps. -/
theorem jumpIter_initialY (curve : ℚ → ℚ) (t : JumpState) :
    ∀ k : ℕ, ((jumpStep curve)^[k] t).initialY = t.initialY := by
  intro k
  induction k with
  | zero => rfl
  | succ n ih => rw [Function.iterate_succ_apply', jumpStep_initialY, ih]

/-- After `k` jump-animation steps, `progress` has advanced by `k/20`. -/
theorem jumpIter_progress (curve : ℚ → ℚ) (t : JumpState) :
    ∀ k : ℕ, ((jumpStep curve)^[k] t).progress = t.progress + k * (1/20) := by
  intro k
  induction k with
  | zero => simp
  | succ n ih =>
    rw [Function.iterate_succ_apply', jumpStep_progress, ih]
    push_cast
    ring

/-- A jump started at progress 0 stays `isJumping` through the first 19
animation steps. -/
theorem jumpIter_jumping (curve : ℚ → ℚ) (t : JumpState)
    (hj : t.isJumping = true) (hp : t.progress = 0) :
    ∀ k : ℕ, k < 20 → ((jumpStep curve)^[k] t).isJumping = true := by
  intro k
  induction k with
  | zero => intro _; exact hj
  | succ n ih =>
    intro hk
    rw [Function.iterate_succ_apply']
    have hpn : ((jumpStep curve)^[n] t).progress = n * (1/20) := by
      rw [jumpIter_progress, hp, zero_add]
    have hcond : ((jumpStep curve)^[n] t).progress + 1/20 < 1 := by
      rw [hpn]
      have hn : (n : ℚ) ≤ 18 := by
        exact_mod_cast (by omega : n ≤ 18)
      linarith
    rw [jumpStep_apply_pos curve _ hcond]
    exact ih (by omega)

/-- A jump trigger on an already-jumping closure state is the identity. -/
theorem jumpStart_jumping (t : JumpState) (h : t.isJumping = true) :
    jumpStart t = t := by
  simp [jumpStart, h]

/-- C8: one full jump arc: from a non-jumping state the trigger raises
`isJumping` without moving the player; `isJumping` stays true through all
19 intermediate animation steps (and a second trigger anywhere in that
window — including immediately after the first — is the identity); at the
20th step, when progress reaches 1, `isJumping` clears and the player's
vertical position is exactly the pre-jump value.  So `isJumping` goes
false → true → false exactly once per trigger. -/
theorem jump_arc_spec (curve : ℚ → ℚ) (s : JumpState)
    (h : s.isJumping = false) :
    ((jumpStart s).isJumping = true ∧ (jumpStart s).y = s.y)
    ∧ (∀ k : ℕ, k < 20 →
        ((jumpStep curve)^[k] (jumpStart s)).isJumping = true ∧
        jumpStart ((jumpStep curve)^[k] (jumpStart s)) =
          (jumpStep curve)^[k] (jumpStart s))
    ∧ ((jumpStep curve)^[20] (jumpStart s)).isJumping = false
    ∧ ((jumpStep curve)^[20] (jumpStart s)).y = s.y := by
  have hs : jumpStart s = { s with isJumping := true, initialY := s.y, progress := 0 } := by
    simp [jumpStart, h]
  have hj : (jumpStart s).isJumping = true := by rw [hs]
  have hp : (jumpStart s).progress = 0 := by rw [hs]
  have hiY : ((jumpStep curve)^[19] (jumpStart s)).initialY = s.y := by
    rw [jumpIter_initialY, hs]
  have h19 : ((jumpStep curve)^[19] (jumpStart s)).progress = 19 * (1/20) := by
    rw [jumpIter_progress, hp, zero_add]
    norm_num
  have h20 : (jumpStep curve)^[20] (jumpStart s) =
      jumpStep curve ((jumpStep curve)^[19] (jumpStart s)) :=
    Function.iterate_succ_apply' (jumpStep curve) 19 (jumpStart s)
  have hcond : ¬ ((jumpStep curve)^[19] (jumpStart s)).progress + 1/20 < 1 := by
    rw [h19]
    norm_num
  refine ⟨⟨hj, by rw [hs]⟩, ?_, ?_, ?_⟩
  · intro k hk
    have hjk := jumpIter_jumping curve (jumpStart s) hj hp k hk
    exact ⟨hjk, jumpStart_jumping _ hjk⟩
  · rw [h20, jumpStep_apply_neg curve _ hcond]
  · rw [h20, jumpStep_apply_neg curve _ hcond]
    exact hiY

/-- C8 witness: the arc applied to a grounded state at y = 0 with a
concrete height curve: still jumping after 5 steps, landed with `isJumping`
cleared and y back to 0 after 20. -/
theorem jump_arc_spec_w :
    ((jumpStep (fun p => p))^[20] (jumpStart js0)).isJumping = false ∧
    ((jumpStep (fun p => p))^[20] (jumpStart js0)).y = 0 ∧
    ((jumpStep (fun p => p))^[5] (jumpStart js0)).isJumping = true :=
  ⟨(jump_arc_spec (fun p => p) js0 rfl).2.2.1,
   (jump_arc_spec (fun p => p) js0 rfl).2.2.2,
   ((jump_arc_spec (fun p => p) js0 rfl).2.1 5 (by norm_num)).1⟩

/-- An active tick ramps the speed by exactly 0.00005. -/
theorem updateActive_speed (rand : ℕ → ℚ) (s : GameService) :
    (updateActive rand s).speed = s.speed + 1/20000 := by
  unfold updateActive
  dsimp only
  split <;> rfl

/-- The track position after an active tick: the advanced position, reset
to 0 when it has reached the recycle threshold `trackLength - 20`. -/
theorem updateActive_trackPosition (rand : ℕ → ℚ) (s : GameService) :
    (updateActive rand s).trackPosition =
      if s.trackPosition + (s.speed + 1/20000) ≥ trackLength - 20 then 0
      else s.trackPosition + (s.speed + 1/20000) := by
  unfold updateActive
  dsimp only
  split <;> rfl

/-- On an Active, not-over state `updateGame` runs the active body. -/
theorem updateGame_active (rand : ℕ → ℚ) (s : GameService)
    (hA : s.gameState.isGameActive = true) (hO : s.gameState.isGameOver = false) :
    updateGame rand s = updateActive rand s := by
  simp [updateGame, hA, hO]

/-- A recycling tick: when the advanced position reaches the threshold, the
position resets to exactly 0 and both entity lists are the freshly
generated lap (each entity then advanced by the new speed, the fresh coins
filtered by the usual collection test) — nothing of the previous lap
survives. -/
theorem updateActive_recycle (rand : ℕ → ℚ) (s : GameService)
    (hge : s.trackPosition + (s.speed + 1/20000) ≥ trackLength - 20) :
    (updateActive rand s).trackPosition = 0
    ∧ (updateActive rand s).obstacles =
        ((generateObstaclesAndCoins rand s.rngIdx).1).map
          (moveEntity (s.speed + 1/20000))
    ∧ (updateActive rand s).coins =
        (((generateObstaclesAndCoins rand s.rngIdx).2.1).map
          (moveSpinCoin (s.speed + 1/20000))).filter
          (fun c => !isPlayerColliding s c) := by
  unfold updateActive
  dsimp only
  split
  · exact ⟨rfl, rfl, rfl⟩
  · rename_i h
    exact absurd hge h

/-- One tick preserves `0 ≤ trackPosition < trackLength` and a nonnegative
speed (inactive ticks are the identity; active ticks either advance below
the threshold 480 or reset to 0). -/
theorem updateGame_inv (rand : ℕ → ℚ) (s : GameService)
    (h0 : 0 ≤ s.trackPosition) (h1 : s.trackPosition < trackLength)
    (h2 : 0 ≤ s.speed) :
    0 ≤ (updateGame rand s).trackPosition ∧
    (updateGame rand s).trackPosition < trackLength ∧
    0 ≤ (updateGame rand s).speed := by
  unfold updateGame
  split
  · exact ⟨h0, h1, h2⟩
  · rw [updateActive_trackPosition, updateActive_speed]
    have hT : trackLength = 500 := rfl
    rw [hT] at h1 ⊢
    split
    · exact ⟨le_refl 0, by norm_num, by linarith⟩
    · rename_i hlt
      push_neg at hlt
      exact ⟨by linarith, by linarith, by linarith⟩

/-- The tick invariant of `updateGame_inv`, propagated over any number of
frames. -/
theorem updateIter_inv (rand : ℕ → ℚ) :
    ∀ (n : ℕ) (s : GameService),
      0 ≤ s.trackPosition → s.trackPosition < trackLength → 0 ≤ s.speed →
      0 ≤ (updateIter rand n s).trackPosition ∧
      (updateIter rand n s).trackPosition < trackLength ∧
      0 ≤ (updateIter rand n s).speed := by
  intro n
  induction n with
  | zero => exact fun s h0 h1 h2 => ⟨h0, h1, h2⟩
  | succ m ih =>
    intro s h0 h1 h2
    have h := updateGame_inv rand s h0 h1 h2
    exact ih (updateGame rand s) h.1 h.2.1 h.2.2

/-- C4: starting from any state with `0 ≤ trackPosition < trackLength` and
nonnegative speed (the initial state and every reachable state qualify),
every sequence of per-frame updates keeps the track position inside
`[0, trackLength)`; and on an Active tick whose advanced position reaches
`trackLength - 20`, the position resets to exactly 0 and the obstacle and
coin lists are wholly replaced by the freshly generated lap. -/
theorem trackPosition_invariant_and_recycle (rand : ℕ → ℚ) (s : GameService)
    (n : ℕ) (h0 : 0 ≤ s.trackPosition) (h1 : s.trackPosition < trackLength)
    (h2 : 0 ≤ s.speed) :
    (0 ≤ (updateIter rand n s).trackPosition ∧
     (updateIter rand n s).trackPosition < trackLength)
    ∧ (s.gameState.isGameActive = true → s.gameState.isGameOver = false →
       s.trackPosition + (s.speed + 1/20000) ≥ trackLength - 20 →
       (updateGame rand s).trackPosition = 0
       ∧ (updateGame rand s).obstacles =
           ((generateObstaclesAndCoins rand s.rngIdx).1).map
             (moveEntity (s.speed + 1/20000))
       ∧ (updateGame rand s).coins =
           (((generateObstaclesAndCoins rand s.rngIdx).2.1).map
             (moveSpinCoin (s.speed + 1/20000))).filter
             (fun c => !isPlayerColliding s c)) := by
  constructor
  · have h := updateIter_inv rand n s h0 h1 h2
    exact ⟨h.1, h.2.1⟩
  · intro hA hO hge
    rw [updateGame_active rand s hA hO]
    exact updateActive_recycle rand s hge

/-- C4 witness: an Active state parked exactly at the recycle threshold
480: the next tick resets the position to 0 and swaps in the fresh lap, and
one frame later the position is again inside `[0, 500)`. -/
theorem trackPosition_invariant_and_recycle_w :
    (0 ≤ (updateIter halfRand 1 recycleState).trackPosition ∧
     (updateIter halfRand 1 recycleState).trackPosition < trackLength)
    ∧ ((updateGame halfRand recycleState).trackPosition = 0
       ∧ (updateGame halfRand recycleState).obstacles =
           ((generateObstaclesAndCoins halfRand recycleState.rngIdx).1).map
             (moveEntity (recycleState.speed + 1/20000))
       ∧ (updateGame halfRand recycleState).coins =
           (((generateObstaclesAndCoins halfRand recycleState.rngIdx).2.1).map
             (moveSpinCoin (recycleState.speed + 1/20000))).filter
             (fun c => !isPlayerColliding recycleState c)) := by
  have T := trackPosition_invariant_and_recycle halfRand recycleState 1
    (by norm_num [recycleState, activeBase, base])
    (by norm_num [recycleState, activeBase, base, trackLength])
    (by norm_num [recycleState, activeBase, base])
  exact ⟨T.1, T.2 rfl rfl
    (by norm_num [recycleState, activeBase, base, trackLength])⟩

/-- Every obstacle produced by the generation loop sits at or before the
z where the loop started (z decreases along the corridor, toward -∞). -/
theorem genLoop_obs_z_le (rand : ℕ → ℚ) (hr : ∀ n, 0 ≤ rand n) :
    ∀ (fuel : ℕ) (z : ℚ) (i : ℕ) (e : Entity),
      e ∈ (genLoop rand fuel z i).1 → e.z ≤ z := by
  intro fuel
  induction fuel with
  | zero =>
    intro z i e he
    simp [genLoop] at he
  | succ m ih =>
    intro z i e he
    simp only [genLoop] at he
    by_cases hc : z > -trackLength + 15
    · rw [if_pos hc] at he
      dsimp only at he
      rw [List.mem_cons] at he
      rcases he with rfl | hmem
      · exact le_refl z
      · have h1 := ih _ _ e hmem
        have h2 : (0:ℚ) ≤
            rand (coinsForRow rand (Int.floor (rand i * 3)) z [0, 1, 2] (i + 2)).2 * 10 :=
          mul_nonneg (hr _) (by norm_num)
        linarith
    · rw [if_neg hc] at he
      simp at he

/-- The obstacle list produced by the generation loop is strictly
decreasing in z: the loop advances by `random * 10 + 5 ≥ 5` each row, so
no two generated obstacles share a row. -/
theorem genLoop_obs_sorted (rand : ℕ → ℚ) (hr : ∀ n, 0 ≤ rand n) :
    ∀ (fuel : ℕ) (z : ℚ) (i : ℕ),
      ((genLoop rand fuel z i).1).Pairwise (fun a b => b.z < a.z) := by
  intro fuel
  induction fuel with
  | zero =>
    intro z i
    simp [genLoop]
  | succ m ih =>
    intro z i
    simp only [genLoop]
    by_cases hc : z > -trackLength + 15
    · rw [if_pos hc]
      dsimp only
      rw [List.pairwise_cons]
      constructor
      · intro b hb
        have h1 := genLoop_obs_z_le rand hr m _ _ b hb
        have h2 : (0:ℚ) ≤
            rand (coinsForRow rand (Int.floor (rand i * 3)) z [0, 1, 2] (i + 2)).2 * 10 :=
          mul_nonneg (hr _) (by norm_num)
        show b.z < z
        linarith
      · exact ih _ _
    · rw [if_neg hc]
      simp

/-- A list of entities with pairwise strictly decreasing z has at most one
element on any fixed z. -/
theorem length_filter_z_le_one (c : ℚ) :
    ∀ l : List Entity, l.Pairwise (fun a b => b.z < a.z) →
      (l.filter (fun e => e.z = c)).length ≤ 1 := by
  intro l
  induction l with
  | nil =>
    intro _
    simp
  | cons a t ih =>
    intro hp
    rw [List.pairwise_cons] at hp
    by_cases ha : a.z = c
    · have ht : t.filter (fun e => e.z = c) = [] := by
        rw [List.filter_eq_nil_iff]
        intro b hb
        have hlt := hp.1 b hb
        simp only [decide_eq_true_eq]
        intro hbc
        rw [hbc, ha] at hlt
        exact lt_irrefl c hlt
      rw [List.filter_cons_of_pos (by simp [ha]), ht]
      simp
    · rw [List.filter_cons_of_neg (by simp [ha])]
      exact ih hp.2

/-- C9: for every random source (any nonnegative draws — genuine sources
draw from [0, 1)), the generated lap has at most one obstacle at any given
row z: each loop iteration places exactly one obstacle and successive rows
have strictly decreasing z, so no row ever has obstacles in more than one
lane — in particular never in all three — leaving at least two lanes
coin-or-empty on every row. -/
theorem one_obstacle_per_row (rand : ℕ → ℚ) (i : ℕ)
    (hr : ∀ n, 0 ≤ rand n) :
    ∀ c : ℚ,
      (((generateObstaclesAndCoins rand i).1).filter
        (fun e => e.z = c)).length ≤ 1 := by
  intro c
  exact length_filter_z_le_one c _ (genLoop_obs_sorted rand hr genFuel (-15) i)

/-- C9 witness: the all-halves random source at the first row z = -15. -/
theorem one_obstacle_per_row_w :
    (((generateObstaclesAndCoins halfRand 0).1).filter
      (fun e => e.z = -15)).length ≤ 1 :=
  one_obstacle_per_row halfRand 0 (fun _ => by norm_num [halfRand]) (-15)

end TempleRun
